import Mathlib

/-!
Verification of the renderer command/capture core of `g3nserverside`
(`src/renderer/command.go` and `src/renderer/message.go`).

The embedding models the command dispatch loop, the per-session image
settings, the clamping primitives, the outbound-message helper and the
dedup tail of `makeScreenShot`.  Go `float32`/`float64` values are modeled
as rationals, Go `int` as `Int` with the 64-bit range check where the
standard library performs one, and collaborator calls (the g3n render
engine, logging, the outbound channels) as an ordered list of `Effect`
values returned next to the updated state.
-/

namespace G3n

/-- Window mouse buttons used by `mapMouseButton`. -/
inductive MouseButton where
  | left
  | middle
  | right
deriving DecidableEq, Repr

/-- Window key codes used by `mapKey`. -/
inductive Key where
  | up
  | left
  | right
  | down
  | enter
deriving DecidableEq, Repr

/-- Press/release action of mouse and key events (`window.Press` / `window.Release`). -/
inductive Action where
  | press
  | release
deriving DecidableEq, Repr

/-- Encoder quality tiers (`highQ`, `mediumQ`, `lowQ` constants of the renderer package). -/
inductive Quality where
  | highQ
  | mediumQ
  | lowQ
deriving DecidableEq, Repr

/-- Command received from client (`command.go`).  The `float32` coordinates
are modeled as rationals. -/
structure Command where
  x : Rat
  y : Rat
  cmd : String
  val : String
  moved : Bool
  ctrl : Bool
deriving DecidableEq, Repr

/-- Go zero value of `Command`: what `json.Unmarshal` leaves behind when the
payload is not valid JSON (the decoder checks syntax before writing any field). -/
def Command.zero : Command :=
  { x := 0, y := 0, cmd := "", val := "", moved := false, ctrl := false }

/-- Model of a Go `float64` value as observed by this program: a finite
value (kept as an exact rational instead of being rounded to the nearest
binary64 — rounding never moves a value across a clamp bound it had not
already crossed), a signed infinity, or NaN. -/
inductive GoFloat where
  | val (q : Rat)
  | inf (neg : Bool)
  | nan
deriving DecidableEq, Repr

/-- Go float64 `<`: false whenever either operand is NaN. -/
def GoFloat.lt : GoFloat → GoFloat → Bool
  | .nan, _ => false
  | _, .nan => false
  | .val a, .val b => decide (a < b)
  | .val _, .inf neg => !neg
  | .inf neg, .val _ => neg
  | .inf na, .inf nb => na && !nb

/-- Go float64 `>`. -/
def GoFloat.gt (a b : GoFloat) : Bool := GoFloat.lt b a

/-- Go float64 `<=`: false whenever either operand is NaN. -/
def GoFloat.le : GoFloat → GoFloat → Bool
  | .nan, _ => false
  | _, .nan => false
  | .val a, .val b => decide (a ≤ b)
  | .val _, .inf neg => !neg
  | .inf neg, .val _ => neg
  | .inf na, .inf nb => (na == nb) || (na && !nb)

/-- Go float64 `==`: false whenever either operand is NaN. -/
def GoFloat.feq : GoFloat → GoFloat → Bool
  | .nan, _ => false
  | _, .nan => false
  | .val a, .val b => decide (a = b)
  | .val _, .inf _ => false
  | .inf _, .val _ => false
  | .inf na, .inf nb => na == nb

/-- The `imageSettings` record of the rendering app.  Its declaring file is
not among the modeled sources; fields and their types are taken from their
uses in `command.go` and `message.go`.  All five numeric fields are
`float64` in Go; brightness, contrast, saturation and blur are only ever
written as conversions of clamped integers, so they are kept as rationals,
while pixelation is written from `ParseFloat` output and is modeled by the
full float domain `GoFloat` (incl. NaN and infinities). -/
structure ImageSettings where
  brightness : Rat
  contrast : Rat
  saturation : Rat
  blur : Rat
  pixelation : GoFloat
  invert : Bool
  quality : Quality
  encoder : String
  isNavigating : Bool
deriving DecidableEq, Repr

/-- Dispatcher-visible state of the rendering app: the image settings, the
`Debug` flag, the `nodeBuffer` map (node identifier to the user-data text
that `fmt.Sprintf` would produce for it) and the package-level
`md5SumBuffer` digest slot. -/
structure AppState where
  imageSettings : ImageSettings
  debug : Bool
  nodeBuffer : List (String × String)
  md5SumBuffer : List Nat
deriving DecidableEq, Repr

/-- One collaborator call made by the command loop, in program order:
log lines, render-engine event injections, and outbound-channel writes. -/
inductive Effect where
  | logError (msg : String)
  | logInfo (msg : String)
  | logReceived (cmd : Command)
  | cursorPos (x y : Rat)
  | mouse (x y : Rat) (action : Action) (button : MouseButton)
  | scroll (xoff yoff : Rat)
  | selectNode (x y : Rat) (ctrl : Bool)
  | hideSelectionAndReset
  | unhideAll
  | key (action : Action) (keycode : Key)
  | setCamera (preset : String)
  | zoomToExtent
  | focusOnSelection
  | setFov (fov : Int)
  | setShouldClose
  | channelSend (payload : String)
deriving DecidableEq, Repr

/-- Calls into the render engine or onto an outbound channel, as opposed to
pure log lines. -/
def Effect.isEngineCall : Effect → Bool
  | .logError _ => false
  | .logInfo _ => false
  | .logReceived _ => false
  | _ => true

/-- Whether an effect is a write to the outbound data channel `cData`. -/
def Effect.isChannelSend : Effect → Bool
  | .channelSend _ => true
  | _ => false

/-- mapMouseButton maps js mouse buttons to window mouse buttons (`command.go`). -/
def mapMouseButton (value : String) : MouseButton :=
  match value with
  | "0" => .left
  | "1" => .middle
  | "2" => .right
  | _ => .left

/-- mapKey maps js keys to window keys (`command.go`). -/
def mapKey (value : String) : Key :=
  match value with
  | "38" => .up
  | "37" => .left
  | "39" => .right
  | "40" => .down
  | _ => .enter

/-- Decimal digit value of a character. -/
def digitVal (c : Char) : Option Nat :=
  if '0' ≤ c ∧ c ≤ '9' then some (c.toNat - '0'.toNat) else none

/-- Value of a digit string; `none` if any character is not a decimal digit. -/
def natOfDigits (cs : List Char) : Option Nat :=
  cs.foldl
    (fun acc c =>
      match acc, digitVal c with
      | some a, some d => some (a * 10 + d)
      | _, _ => none)
    (some 0)

/-- Model of `strconv.Atoi`: optional sign followed by at least one decimal
digit, rejected (with a non-nil error in Go, hence `none` here) on empty
input, any non-digit character, or a value outside the 64-bit `int` range. -/
def atoi (str : String) : Option Int :=
  let cs := str.toList
  let signAndRest : Bool × List Char :=
    match cs with
    | '+' :: rest => (false, rest)
    | '-' :: rest => (true, rest)
    | _ => (false, cs)
  match signAndRest.2, natOfDigits signAndRest.2 with
  | [], _ => none
  | _, none => none
  | _ :: _, some n =>
    let v : Int := if signAndRest.1 then -(n : Int) else (n : Int)
    if v < -(2 ^ 63) ∨ 2 ^ 63 - 1 < v then none else some v

/-- ASCII lower-casing as in strconv (`c | 0x20` on the letters compared). -/
def lowerChar (c : Char) : Char :=
  if 'A' ≤ c ∧ c ≤ 'Z' then Char.ofNat (c.toNat + 32) else c

/-- Decimal digit test. -/
def isDecDigit (c : Char) : Bool := decide ('0' ≤ c) && decide (c ≤ '9')

/-- Hexadecimal digit test (case-insensitive). -/
def isHexDigitChar (c : Char) : Bool :=
  isDecDigit c || (decide ('a' ≤ lowerChar c) && decide (lowerChar c ≤ 'f'))

/-- Numeric value of a (decimal or hexadecimal) digit. -/
def hexVal (c : Char) : Nat :=
  if isDecDigit c then c.toNat - '0'.toNat
  else (lowerChar c).toNat - 'a'.toNat + 10

/-- Value of a digit list in the given base. -/
def digitsToNat (base : Nat) (ds : List Char) : Nat :=
  ds.foldl (fun a c => a * base + hexVal c) 0

/-- Case-insensitive comparison of a character list against a keyword. -/
def eqIgnoreCase (cs : List Char) (s : String) : Bool :=
  (cs.map lowerChar) == s.toList

/-- Model of strconv's `special`: after an optional sign only "inf" or
"infinity" (case-insensitive, whole string); a bare "nan" (no sign) is NaN
— exactly the special forms `ParseFloat` accepts with a nil error. -/
def parseSpecial (cs : List Char) : Option GoFloat :=
  match cs with
  | [] => none
  | c :: rest =>
    if c = '+' || c = '-' then
      if eqIgnoreCase rest "inf" || eqIgnoreCase rest "infinity" then
        some (.inf (c = '-'))
      else none
    else if eqIgnoreCase cs "nan" then some .nan
    else if eqIgnoreCase cs "inf" || eqIgnoreCase cs "infinity" then some (.inf false)
    else none

/-- Scan a maximal run of digits, skipping underscores (their placement is
validated separately by `underscoreOK`, as in strconv's `readFloat`):
returns the digits kept and the unconsumed rest. -/
def scanDigitsU (isD : Char → Bool) : List Char → List Char × List Char
  | [] => ([], [])
  | c :: rest =>
    if isD c then
      let r := scanDigitsU isD rest
      (c :: r.1, r.2)
    else if c = '_' then scanDigitsU isD rest
    else ([], c :: rest)

/-- State machine of strconv's `underscoreOK`: `saw` is the class of the
previous character (start, digit/base prefix, underscore, or other). -/
def underscoreOKBody (hex : Bool) : Char → List Char → Bool
  | saw, [] => saw ≠ '_'
  | saw, c :: rest =>
    if isDecDigit c || (hex && isHexDigitChar c) then underscoreOKBody hex '0' rest
    else if c = '_' then
      if saw = '0' then underscoreOKBody hex '_' rest else false
    else if saw = '_' then false
    else underscoreOKBody hex '!' rest

/-- Model of strconv's `underscoreOK`: underscores may appear only between
digits or between a base prefix and a digit. -/
def underscoreOK (cs : List Char) : Bool :=
  let cs1 :=
    match cs with
    | '+' :: r => r
    | '-' :: r => r
    | _ => cs
  match cs1 with
  | '0' :: x :: r =>
    if lowerChar x = 'b' || lowerChar x = 'o' || lowerChar x = 'x' then
      underscoreOKBody (lowerChar x = 'x') '0' r
    else underscoreOKBody false '^' cs1
  | _ => underscoreOKBody false '^' cs1

/-- Smallest magnitude that rounds to infinity in binary64, written with
nested powers for kernel evaluation: `(2^64)^16 - (2^64)^15 * 2^10`
equals `2^1024 - 2^970`.  `ParseFloat` reports `ErrRange` (a non-nil
error) exactly when the decimal value reaches this magnitude. -/
def float64Overflow : Nat := (2 ^ 64) ^ 16 - (2 ^ 64) ^ 15 * 2 ^ 10

/-- Exact value of a scanned mantissa and exponent: the mantissa digits as
an integer times `10^e` (decimal) or `2^e` (hexadecimal) shifted by the
fractional length; `none` models the `ErrRange` overflow error (values
rounding to infinity), after which the caller keeps a non-nil `err`. -/
def buildFloat (neg isHex : Bool) (ipart fpart : List Char) (e : Int) : Option GoFloat :=
  let base : Nat := if isHex then 16 else 10
  let pbase : Nat := if isHex then 2 else 10
  let M : Nat := digitsToNat base ipart * base ^ fpart.length + digitsToNat base fpart
  let shift : Int := e - (if isHex then 4 * (fpart.length : Int) else (fpart.length : Int))
  let num : Int := if neg then -(M : Int) else (M : Int)
  let v : Rat :=
    if 0 ≤ shift then ((num * ((pbase ^ shift.toNat : Nat) : Int) : Int) : Rat)
    else Rat.divInt num ((pbase ^ (-shift).toNat : Nat) : Int)
  if ((float64Overflow : Nat) : Rat) ≤ v ∨ v ≤ ((-(float64Overflow : Int)) : Rat) then none
  else some (.val v)

/-- Numeric branch of `strconv.ParseFloat` following `readFloat`: optional
sign, optional `0x` prefix, digits with underscores and an optional point
(at least one digit), an optional `e`-exponent for decimal and a required
`p`-exponent for hexadecimal, whole-string consumption, and the
`underscoreOK` placement check. -/
def parseFloatNumeric (str : String) : Option GoFloat :=
  let cs0 := str.toList
  let signAndRest : Bool × List Char :=
    match cs0 with
    | '+' :: r => (false, r)
    | '-' :: r => (true, r)
    | _ => (false, cs0)
  let neg := signAndRest.1
  let hexAndRest : Bool × List Char :=
    match signAndRest.2 with
    | '0' :: x :: r => if lowerChar x = 'x' then (true, r) else (false, signAndRest.2)
    | _ => (false, signAndRest.2)
  let isHex := hexAndRest.1
  let isD : Char → Bool := if isHex then isHexDigitChar else isDecDigit
  let scanI := scanDigitsU isD hexAndRest.2
  let ipart := scanI.1
  let scanF : List Char × List Char :=
    match scanI.2 with
    | '.' :: r => scanDigitsU isD r
    | _ => ([], scanI.2)
  let fpart := scanF.1
  if ipart.isEmpty && fpart.isEmpty then none
  else
    match scanF.2 with
    | [] =>
      if isHex then none
      else if underscoreOK cs0 then buildFloat neg isHex ipart fpart 0
      else none
    | c :: r =>
      if lowerChar c = (if isHex then 'p' else 'e') then
        let esignAndRest : Bool × List Char :=
          match r with
          | '+' :: rr => (false, rr)
          | '-' :: rr => (true, rr)
          | _ => (false, r)
        let scanE := scanDigitsU isDecDigit esignAndRest.2
        if scanE.1.isEmpty || !scanE.2.isEmpty then none
        else if underscoreOK cs0 then
          let e : Int :=
            if esignAndRest.1 then -(digitsToNat 10 scanE.1 : Int)
            else (digitsToNat 10 scanE.1 : Int)
          buildFloat neg isHex ipart fpart e
        else none
      else none

/-- Model of `strconv.ParseFloat`: the special values NaN and ±Inf, then
decimal and hexadecimal literals with exponents and underscores; `none`
exactly when Go returns a non-nil error (syntax error or `ErrRange`
overflow), which makes the caller skip the field. -/
def parseFloat (str : String) : Option GoFloat :=
  match parseSpecial str.toList with
  | some f => some f
  | none => parseFloatNumeric str

/-- Split a character list around every occurrence of the separator. -/
def splitCharList (sep : Char) : List Char → List (List Char)
  | [] => [[]]
  | c :: rest =>
    let r := splitCharList sep rest
    if c = sep then [] :: r
    else
      match r with
      | g :: gs => (c :: g) :: gs
      | [] => [[c]]

/-- Model of `strings.Split` with a one-character separator: the substrings
between consecutive separators, so that `split ':' "" = [""]` and a string
with `n` separators yields `n+1` fields, exactly as in Go. -/
def splitString (sep : Char) (s : String) : List String :=
  (splitCharList sep s.toList).map fun g => String.mk g

/-- getValueInRange returns a value within bounds (`command.go`). -/
def getValueInRange (value lower upper : Int) : Int :=
  if value > upper then upper
  else if value < lower then lower
  else value

/-- getFloatValueInRange returns a value within bounds (`command.go`);
its `float64` comparisons are false whenever `value` is NaN, so NaN passes
through unclamped. -/
def getFloatValueInRange (value lower upper : GoFloat) : GoFloat :=
  if value.gt upper then upper
  else if value.lt lower then lower
  else value

/-- JSON rendering of the outbound `Message` struct produced by
`json.Marshal` (field tags `action` and `value`; the values arising in this
development need no JSON string escaping). -/
def marshalMessage (action value : String) : String :=
  "\x7b\"action\":\"" ++ action ++ "\",\"value\":\"" ++ value ++ "\"\x7d"

/-- sendMessageToClient (`message.go`): marshals the message and logs it.
The write to the outbound data channel (`app.cData <- ...`) is commented
out in the source, so the function produces no `channelSend` effect. -/
def sendMessageToClient (action value : String) : List Effect :=
  [Effect.logInfo ("sending message: " ++ marshalMessage action value)]

/-- The `imagesettings` case of the dispatch switch (`command.go` lines
128-151): split the value on `:`, and when exactly five fields are present
parse and clamp each one independently, skipping a field whose parse fails. -/
def applyImageSettings (val : String) (is0 : ImageSettings) : ImageSettings :=
  let parts := splitString ':' val
  if parts.length = 5 then
    let is1 :=
      match atoi (parts.getD 0 "") with
      | some br => { is0 with brightness := ((getValueInRange br (-100) 100 : Int) : Rat) }
      | none => is0
    let is2 :=
      match atoi (parts.getD 1 "") with
      | some ct => { is1 with contrast := ((getValueInRange ct (-100) 100 : Int) : Rat) }
      | none => is1
    let is3 :=
      match atoi (parts.getD 2 "") with
      | some sa => { is2 with saturation := ((getValueInRange sa (-100) 100 : Int) : Rat) }
      | none => is2
    let is4 :=
      match atoi (parts.getD 3 "") with
      | some bl => { is3 with blur := ((getValueInRange bl 0 20 : Int) : Rat) }
      | none => is3
    let is5 :=
      match parseFloat (parts.getD 4 "") with
      | some pix => { is4 with pixelation := getFloatValueInRange pix (.val 1) (.val 10) }
      | none => is4
    is5
  else is0

/-- The `quality` case of the dispatch switch (`command.go` lines 152-163):
parse the value as an integer; on success map 0 to `highQ`, 2 to `lowQ`
and anything else to `mediumQ`; on a parse error do nothing. -/
def applyQuality (val : String) (is : ImageSettings) : ImageSettings :=
  match atoi val with
  | some q =>
    { is with quality := if q = 0 then .highQ else if q = 2 then .lowQ else .mediumQ }
  | none => is

/-- The switch statement of `commandLoop` (`command.go` lines 67-180),
written as the sequential comparison chain a Go string switch denotes.
Returns the updated dispatcher state and the ordered collaborator calls. -/
def dispatchCommand (cmd : Command) (s : AppState) : AppState × List Effect :=
  if cmd.cmd = "" then
    (s, [Effect.cursorPos cmd.x cmd.y])
  else if cmd.cmd = "mousedown" then
    let s1 := if cmd.moved then { s with imageSettings.isNavigating := true } else s
    (s1, [Effect.mouse cmd.x cmd.y .press (mapMouseButton cmd.val)])
  else if cmd.cmd = "zoom" then
    let scrollFactor : Rat := 10
    (s, [Effect.scroll cmd.x (-cmd.y / scrollFactor)])
  else if cmd.cmd = "mouseup" then
    let s1 := { s with imageSettings.isNavigating := false }
    (s1, [Effect.mouse cmd.x cmd.y .release (mapMouseButton cmd.val)] ++
      if cmd.val == "0" && !cmd.moved then [Effect.selectNode cmd.x cmd.y cmd.ctrl] else [])
  else if cmd.cmd = "hide" then
    (s, [Effect.hideSelectionAndReset])
  else if cmd.cmd = "unhide" then
    (s, [Effect.unhideAll])
  else if cmd.cmd = "userdata" then
    match s.nodeBuffer.lookup cmd.val with
    | some userData => (s, sendMessageToClient "userdata" userData)
    | none => (s, [])
  else if cmd.cmd = "keydown" then
    (s, [Effect.key .press (mapKey cmd.val)])
  else if cmd.cmd = "keyup" then
    (s, [Effect.key .release (mapKey cmd.val)])
  else if cmd.cmd = "view" then
    (s, [Effect.setCamera cmd.val])
  else if cmd.cmd = "zoomextent" then
    (s, [Effect.zoomToExtent])
  else if cmd.cmd = "focus" then
    (s, [Effect.focusOnSelection])
  else if cmd.cmd = "invert" then
    if s.imageSettings.invert then
      ({ s with imageSettings.invert := false }, [])
    else
      ({ s with imageSettings.invert := true }, [])
  else if cmd.cmd = "imagesettings" then
    ({ s with imageSettings := applyImageSettings cmd.val s.imageSettings }, [])
  else if cmd.cmd = "quality" then
    ({ s with imageSettings := applyQuality cmd.val s.imageSettings }, [])
  else if cmd.cmd = "fov" then
    match atoi cmd.val with
    | some fov => (s, [Effect.setFov (getValueInRange fov 5 120)])
    | none => (s, [])
  else if cmd.cmd = "debug" then
    if s.debug then ({ s with debug := false }, [])
    else ({ s with debug := true }, [])
  else if cmd.cmd = "close" then
    (s, [Effect.logInfo "close", Effect.setShouldClose])
  else
    (s, [Effect.logInfo ("Unknown Command: " ++ cmd.cmd)])

/-- One iteration of `commandLoop` after `json.Unmarshal`: the unmarshal
outcome is taken as input (`decodeErr` is the error message when the
payload was malformed, and `cmd` is whatever the decoder left in the
struct — the zero value for syntactically invalid JSON).  The error is
logged, but the loop body contains no early exit: the command is
dispatched either way, and the loop then continues with the next message. -/
def handleMessage (decodeErr : Option String) (cmd : Command) (s : AppState) :
    AppState × List Effect :=
  let errLog :=
    match decodeErr with
    | some e => [Effect.logError e]
    | none => []
  let infoLog := if cmd.cmd ≠ "" then [Effect.logReceived cmd] else []
  let res := dispatchCommand cmd s
  (res.1, errLog ++ infoLog ++ res.2)

/-- State reached after dispatching a sequence of commands in order. -/
def runCommands (cmds : List Command) (s : AppState) : AppState :=
  match cmds with
  | [] => s
  | c :: rest => runCommands rest (dispatchCommand c s).1

/-- Result of one image-encoding attempt inside `makeScreenShot`. -/
inductive EncodeResult where
  | ok (imageBit : List Nat)
  | err (msg : String)
deriving DecidableEq, Repr

/-- Outcome of the tail of `makeScreenShot`: `panicked` models `panic(err)`
aborting the process (no `recover` exists in the sources); `completed`
carries the new `md5SumBuffer` value and the frame pushed onto the
outbound image stream, if any. -/
inductive CaptureOutcome where
  | panicked (msg : String)
  | completed (md5SumBuffer : List Nat) (sent : Option (List Nat))
deriving DecidableEq, Repr

/-- The tail of `makeScreenShot` (`message.go` lines 75-104) from the encode
step on: on an encode error the code panics; otherwise it takes the md5
digest of the encoded bytes, and only when it differs from `md5SumBuffer`
sends the frame on `cImagestream` and stores the digest.  The digest
function `md5` (`crypto/md5`, 16 bytes) is a parameter of the model. -/
def screenShotTail (md5 : List Nat → List Nat) (res : EncodeResult) (buf : List Nat) :
    CaptureOutcome :=
  match res with
  | .err e => .panicked e
  | .ok imageBit =>
    let md := md5 imageBit
    if buf ≠ md then .completed md (some imageBit)
    else .completed buf none

/-- Iterated render ticks: run `screenShotTail` over successively encoded
frames, collecting the transmitted frames in order and threading the
digest slot. -/
def dedupRun (md5 : List Nat → List Nat) (frames : List (List Nat)) (buf : List Nat) :
    List Nat × List (List Nat) :=
  match frames with
  | [] => (buf, [])
  | f :: rest =>
    match screenShotTail md5 (.ok f) buf with
    | .panicked _ => (buf, [])
    | .completed b2 sent =>
      let r := dedupRun md5 rest b2
      (r.1, sent.toList ++ r.2)

/-- Digest of the most recently transmitted frame of a tick run, or the
initial digest slot value when no frame was transmitted. -/
def lastDigest (md5 : List Nat → List Nat) (outs : List (List Nat)) (buf : List Nat) :
    List Nat :=
  match outs.getLast? with
  | some f => md5 f
  | none => buf

/-- Zero value of the 16-byte `md5SumBuffer` array before any frame was sent. -/
def zero16 : List Nat := List.replicate 16 0

/-- The declared ranges of the numeric image settings: brightness, contrast
and saturation in [-100,100], blur in [0,20], pixelation in [1,10] (the
float bounds read with float64 comparisons, so a NaN pixelation is out of
range). -/
def settingsInRange (is : ImageSettings) : Prop :=
  -100 ≤ is.brightness ∧ is.brightness ≤ 100 ∧
  -100 ≤ is.contrast ∧ is.contrast ≤ 100 ∧
  -100 ≤ is.saturation ∧ is.saturation ≤ 100 ∧
  0 ≤ is.blur ∧ is.blur ≤ 20 ∧
  GoFloat.le (.val 1) is.pixelation = true ∧ GoFloat.le is.pixelation (.val 10) = true

instance : DecidablePred settingsInRange := fun is => by
  unfold settingsInRange
  infer_instance

/-- The invariant the code actually maintains: the four integer-backed
fields stay in range, and pixelation is either in range or NaN (stored
when an imagesettings command's fifth field parses to NaN). -/
def settingsAdmissible (is : ImageSettings) : Prop :=
  -100 ≤ is.brightness ∧ is.brightness ≤ 100 ∧
  -100 ≤ is.contrast ∧ is.contrast ≤ 100 ∧
  -100 ≤ is.saturation ∧ is.saturation ≤ 100 ∧
  0 ≤ is.blur ∧ is.blur ≤ 20 ∧
  ((GoFloat.le (.val 1) is.pixelation = true ∧ GoFloat.le is.pixelation (.val 10) = true) ∨
    is.pixelation = GoFloat.nan)

instance : DecidablePred settingsAdmissible := fun is => by
  unfold settingsAdmissible
  infer_instance

/-- A concrete in-range dispatcher state used in concrete evaluations:
one node `"42"` with user-data text `"somedata"` in the node buffer. -/
def sampleState : AppState :=
  { imageSettings :=
      { brightness := 0, contrast := 0, saturation := 0, blur := 0, pixelation := .val 1,
        invert := false, quality := .mediumQ, encoder := "", isNavigating := false },
    debug := false,
    nodeBuffer := [("42", "somedata")],
    md5SumBuffer := zero16 }

/-- `sampleState` with the quality tier set to `highQ`. -/
def sampleStateHigh : AppState :=
  { sampleState with imageSettings.quality := .highQ }

/-- A stand-in digest function used to instantiate witnesses. -/
def sampleDigest (b : List Nat) : List Nat := b

end G3n

namespace G3n

/-- Helper: the integer clamp stays within its bounds. -/
theorem getValueInRange_mem (v lo hi : Int) (h : lo ≤ hi) :
    lo ≤ getValueInRange v lo hi ∧ getValueInRange v lo hi ≤ hi := by
  unfold getValueInRange
  split_ifs <;> omega

/-- Helper: the integer clamp is idempotent. -/
theorem getValueInRange_idem (v lo hi : Int) (h : lo ≤ hi) :
    getValueInRange (getValueInRange v lo hi) lo hi = getValueInRange v lo hi := by
  unfold getValueInRange
  split_ifs <;> omega

/-- Helper: for non-NaN input and non-NaN bounds with lo ≤ hi, the float
clamp stays within its bounds and is idempotent. -/
theorem getFloatValueInRange_spec (q qlo qhi : GoFloat)
    (hb : GoFloat.le qlo qhi = true) (hn : q ≠ GoFloat.nan) :
    GoFloat.le qlo (getFloatValueInRange q qlo qhi) = true ∧
    GoFloat.le (getFloatValueInRange q qlo qhi) qhi = true ∧
    getFloatValueInRange (getFloatValueInRange q qlo qhi) qlo qhi =
      getFloatValueInRange q qlo qhi := by
  rcases q with a | sq | _ <;>
    rcases qlo with la | sl | _ <;>
      rcases qhi with ha | sh | _ <;>
        first
          | exact absurd rfl hn
          | (simp only [GoFloat.le] at hb
             try cases sq
             all_goals try cases sl
             all_goals try cases sh
             all_goals simp_all [getFloatValueInRange, GoFloat.gt, GoFloat.lt, GoFloat.le]
             all_goals split_ifs <;> simp_all <;> linarith)

/-- C9 counterexample: in the floating domain the clamp is not bounded and
not Go-==-idempotent for every value — at v = NaN with bounds 1 ≤ 10 the
clamp returns NaN (both comparisons are false), the lower-bound property
1 ≤ clamp(v,1,10) fails, and clamp(clamp(v)) == clamp(v) is false because
NaN == NaN is false. -/
theorem float_clamp_nan_counterexample :
    GoFloat.le (.val 1) (.val 10) = true ∧
    getFloatValueInRange .nan (.val 1) (.val 10) = .nan ∧
    GoFloat.le (.val 1) (getFloatValueInRange .nan (.val 1) (.val 10)) = false ∧
    GoFloat.feq
      (getFloatValueInRange (getFloatValueInRange .nan (.val 1) (.val 10)) (.val 1) (.val 10))
      (getFloatValueInRange .nan (.val 1) (.val 10)) = false := by decide

/-- Helper: the float clamp maps NaN to NaN for all bounds, since both
float64 comparisons are false on NaN. -/
theorem getFloatValueInRange_nan (qlo qhi : GoFloat) :
    getFloatValueInRange GoFloat.nan qlo qhi = GoFloat.nan := by
  cases qhi <;> cases qlo <;> rfl

/-- C9 amended: for every pair of bounds with lo ≤ hi the integer clamp is
range-bounded and idempotent for every value, and the float clamp
(read with float64 comparisons, under which lo ≤ hi already excludes NaN
bounds) is range-bounded and idempotent for every value other than NaN;
at NaN both comparisons are false and the clamp returns NaN unclamped. -/
theorem clamp_bounded_idempotent (v lo hi : Int) (q qlo qhi : GoFloat)
    (h : lo ≤ hi) (hq : GoFloat.le qlo qhi = true) (hn : q ≠ GoFloat.nan) :
    (lo ≤ getValueInRange v lo hi ∧ getValueInRange v lo hi ≤ hi ∧
      getValueInRange (getValueInRange v lo hi) lo hi = getValueInRange v lo hi) ∧
    (GoFloat.le qlo (getFloatValueInRange q qlo qhi) = true ∧
      GoFloat.le (getFloatValueInRange q qlo qhi) qhi = true ∧
      getFloatValueInRange (getFloatValueInRange q qlo qhi) qlo qhi =
        getFloatValueInRange q qlo qhi) ∧
    getFloatValueInRange GoFloat.nan qlo qhi = GoFloat.nan :=
  ⟨⟨(getValueInRange_mem v lo hi h).1, (getValueInRange_mem v lo hi h).2,
      getValueInRange_idem v lo hi h⟩,
    getFloatValueInRange_spec q qlo qhi hq hn,
    getFloatValueInRange_nan qlo qhi⟩

/-- C9 witness: the amended clamp properties evaluated at concrete inputs
(v = 150 against [-100,100] and q = 1/2 against the float bounds [1,10]). -/
theorem clamp_bounded_idempotent_witness :
    ((-100 : Int) ≤ getValueInRange 150 (-100) 100 ∧ getValueInRange 150 (-100) 100 ≤ 100 ∧
      getValueInRange (getValueInRange 150 (-100) 100) (-100) 100 =
        getValueInRange 150 (-100) 100) ∧
    (GoFloat.le (.val 1) (getFloatValueInRange (.val (Rat.divInt 1 2)) (.val 1) (.val 10)) = true ∧
      GoFloat.le (getFloatValueInRange (.val (Rat.divInt 1 2)) (.val 1) (.val 10)) (.val 10) = true ∧
      getFloatValueInRange
        (getFloatValueInRange (.val (Rat.divInt 1 2)) (.val 1) (.val 10)) (.val 1) (.val 10) =
        getFloatValueInRange (.val (Rat.divInt 1 2)) (.val 1) (.val 10)) ∧
    getFloatValueInRange GoFloat.nan (.val 1) (.val 10) = GoFloat.nan :=
  clamp_bounded_idempotent 150 (-100) 100 (.val (Rat.divInt 1 2)) (.val 1) (.val 10)
    (by decide) (by decide) (by decide)

/-- C5: what the code actually does on an encode failure — the tail of
`makeScreenShot` panics with the encode error, aborting the process, for
every digest function and every current digest-slot value.  This refutes
the claim that encoding failure is reported as a recoverable per-frame
error and never terminates the process. -/
theorem encode_failure_panics (md5 : List Nat → List Nat) (buf : List Nat) (e : String) :
    screenShotTail md5 (.err e) buf = .panicked e := rfl

/-- C1 counterexample: a syntactically invalid payload (decode error with
the command left at its zero value) makes `commandLoop` log the error but
then still dispatch the zero command, producing a cursor-position call into
the render engine at (0,0) — the claim that no render-engine call is made
on malformed input is false. -/
theorem malformed_payload_engine_call :
    (handleMessage (some "invalid JSON") Command.zero sampleState).2 =
      [Effect.logError "invalid JSON", Effect.cursorPos 0 0] ∧
    ((handleMessage (some "invalid JSON") Command.zero sampleState).2.any
      fun e => e.isEngineCall) = true := by decide

/-- C1 amended: on a decode error the command loop logs the error and
continues, but does not discard the partially decoded command — the state
and the collaborator calls are exactly those of dispatching that residual
command, with the error log prepended; in particular a payload that is not
valid JSON leaves the command at its zero value, whose dispatch keeps all
dispatcher state unchanged but sends a cursor-move at (0,0) to the engine. -/
theorem decode_error_logged_dispatch_continues (e : String) (cmd : Command) (s : AppState) :
    (handleMessage (some e) cmd s).1 = (handleMessage none cmd s).1 ∧
    (handleMessage (some e) cmd s).2 = Effect.logError e :: (handleMessage none cmd s).2 ∧
    handleMessage (some e) Command.zero s =
      (s, [Effect.logError e, Effect.cursorPos 0 0]) :=
  ⟨rfl, rfl, rfl⟩

/-- C3 counterexample: for the mouseup command with value "7" the mapped
button is primary (Left) and moved is false, yet no selection pick is
performed — the pick is guarded by the raw value being "0", not by the
mapped button being Left, so the claimed if-and-only-if is false. -/
theorem mouseup_pick_counterexample :
    mapMouseButton "7" = MouseButton.left ∧
    (dispatchCommand ⟨10, 20, "mouseup", "7", false, false⟩ sampleState).2 =
      [Effect.mouse 10 20 .release .left] := by decide

/-- C3 amended: every mouseup command issues a release event with the
mapped button and clears isNavigating, and performs a selection pick at
(x,y) honoring ctrl as extend-selection if and only if the raw value is
"0" and moved is false; in particular the command
X=10, Y=20, Cmd=mouseup, Val="0", Moved=false, Ctrl=false triggers both
the release and a pick at (10,20) with extend=false. -/
theorem mouseup_dispatch (cmd : Command) (s : AppState) (h : cmd.cmd = "mouseup") :
    dispatchCommand cmd s =
      ({ s with imageSettings.isNavigating := false },
        [Effect.mouse cmd.x cmd.y .release (mapMouseButton cmd.val)] ++
          if cmd.val == "0" && !cmd.moved then [Effect.selectNode cmd.x cmd.y cmd.ctrl]
          else []) ∧
    dispatchCommand ⟨10, 20, "mouseup", "0", false, false⟩ sampleState =
      ({ sampleState with imageSettings.isNavigating := false },
        [Effect.mouse 10 20 .release .left, Effect.selectNode 10 20 false]) := by
  obtain ⟨x, y, c, v, m, ct⟩ := cmd
  subst h
  exact ⟨rfl, by decide⟩

/-- C3 witness: the amended mouseup dispatch evaluated at the concrete
example command (value "0", not moved). -/
theorem mouseup_dispatch_witness :
    dispatchCommand ⟨10, 20, "mouseup", "0", false, false⟩ sampleState =
      ({ sampleState with imageSettings.isNavigating := false },
        [Effect.mouse 10 20 .release .left, Effect.selectNode 10 20 false]) :=
  (mouseup_dispatch ⟨10, 20, "mouseup", "0", false, false⟩ sampleState rfl).2

end G3n

namespace G3n

/-- C4 counterexample: a quality command whose value "x" is not an integer
leaves the quality tier exactly as it was (here High), instead of setting
the claimed Medium fallback — non-integer values are a no-op, refuting the
claim that every value other than "0" and "2" sets Medium. -/
theorem quality_non_integer_counterexample :
    (dispatchCommand ⟨0, 0, "quality", "x", false, false⟩ sampleStateHigh).1.imageSettings.quality
      = Quality.highQ ∧
    Quality.highQ ≠ Quality.mediumQ := by decide

/-- C4 amended: for every quality command, if the value parses as an
integer then 0 sets High, 2 sets Low and every other integer sets Medium;
a value that does not parse as an integer leaves the whole state unchanged
(a silent no-op, not a Medium fallback). -/
theorem quality_dispatch (val : String) (x y : Rat) (m c : Bool) (s : AppState) :
    (atoi val = none →
      dispatchCommand ⟨x, y, "quality", val, m, c⟩ s = (s, [])) ∧
    (∀ q : Int, atoi val = some q →
      dispatchCommand ⟨x, y, "quality", val, m, c⟩ s =
        ({ s with imageSettings.quality :=
            if q = 0 then .highQ else if q = 2 then .lowQ else .mediumQ }, [])) := by
  have base : dispatchCommand ⟨x, y, "quality", val, m, c⟩ s =
      ({ s with imageSettings := applyQuality val s.imageSettings }, []) := rfl
  constructor
  · intro h
    rw [base]
    unfold applyQuality
    rw [h]
  · intro q h
    rw [base]
    unfold applyQuality
    rw [h]

/-- C4 witness: the amended quality dispatch evaluated at the concrete
values "2" (Low), "7" (Medium) and "0" (High). -/
theorem quality_dispatch_witness :
    dispatchCommand ⟨0, 0, "quality", "2", false, false⟩ sampleState =
      ({ sampleState with imageSettings.quality := Quality.lowQ }, []) ∧
    dispatchCommand ⟨0, 0, "quality", "7", false, false⟩ sampleState =
      ({ sampleState with imageSettings.quality := Quality.mediumQ }, []) ∧
    dispatchCommand ⟨0, 0, "quality", "0", false, false⟩ sampleState =
      ({ sampleState with imageSettings.quality := Quality.highQ }, []) := by
  refine ⟨?_, ?_, ?_⟩
  · have h := (quality_dispatch "2" 0 0 false false sampleState).2 2 (by decide)
    simpa using h
  · have h := (quality_dispatch "7" 0 0 false false sampleState).2 7 (by decide)
    simpa using h
  · have h := (quality_dispatch "0" 0 0 false false sampleState).2 0 (by decide)
    simpa using h

/-- C6: what the code actually does for a userdata command — with a node
whose identifier equals the value present in the node buffer, the message
is marshaled and logged but never written to the outbound data channel
(the channel send in sendMessageToClient is commented out), so nothing is
delivered to the client; for an unknown identifier nothing happens at all. -/
theorem userdata_logged_never_sent :
    dispatchCommand ⟨0, 0, "userdata", "42", false, false⟩ sampleState =
      (sampleState,
        [Effect.logInfo "sending message: \x7b\"action\":\"userdata\",\"value\":\"somedata\"\x7d"]) ∧
    ((dispatchCommand ⟨0, 0, "userdata", "42", false, false⟩ sampleState).2.any
      fun e => e.isChannelSend) = false ∧
    dispatchCommand ⟨0, 0, "userdata", "missing", false, false⟩ sampleState =
      (sampleState, []) := by decide

end G3n

namespace G3n

/-- Helper: after any run of render ticks the digest slot equals the digest
of the last transmitted frame, or the initial slot value if none was sent. -/
theorem dedupRun_lastDigest (md5 : List Nat → List Nat) (frames : List (List Nat)) :
    ∀ buf, (dedupRun md5 frames buf).1 = lastDigest md5 (dedupRun md5 frames buf).2 buf := by
  induction frames with
  | nil => intro buf; rfl
  | cons f rest ih =>
    intro buf
    by_cases h : buf = md5 f
    · subst h
      simpa [dedupRun, screenShotTail] using ih (md5 f)
    · have hij := ih (md5 f)
      simp only [dedupRun, screenShotTail, ne_eq, h, not_false_eq_true, if_true]
      rcases hr : (dedupRun md5 rest (md5 f)).2 with _ | ⟨g, gs⟩
      · rw [hr] at hij
        simpa [lastDigest, hr] using hij
      · rw [hr] at hij
        simpa [lastDigest, hr, List.getLast?_cons_cons] using hij

end G3n

namespace G3n

/-- C2: the dedup gate of `makeScreenShot` — a freshly encoded frame whose
digest equals the digest slot is discarded with no transmission and no
state change; a frame with a differing digest is sent on the image stream
and the slot is updated; two consecutive ticks with byte-identical
encodings transmit exactly once, two ticks with digest-distinct encodings
transmit both in order, and after any run of ticks the slot equals the
digest of the last transmitted frame (or the initial value — the zero
digest at startup — when nothing was sent). -/
theorem dedup_gate (md5 : List Nat → List Nat) (b1 b2 buf : List Nat)
    (frames : List (List Nat)) (h1 : md5 b1 ≠ buf) (h2 : md5 b2 ≠ md5 b1) :
    screenShotTail md5 (.ok b1) (md5 b1) = .completed (md5 b1) none ∧
    screenShotTail md5 (.ok b1) buf = .completed (md5 b1) (some b1) ∧
    (dedupRun md5 [b1, b1] buf).2 = [b1] ∧
    (dedupRun md5 [b1, b2] buf).2 = [b1, b2] ∧
    (dedupRun md5 frames buf).1 = lastDigest md5 (dedupRun md5 frames buf).2 buf := by
  have hne : buf ≠ md5 b1 := fun hh => h1 hh.symm
  refine ⟨?_, ?_, ?_, ?_, dedupRun_lastDigest md5 frames buf⟩
  · simp [screenShotTail]
  · simp [screenShotTail, hne]
  · simp [dedupRun, screenShotTail, hne]
  · have hne2 : md5 b1 ≠ md5 b2 := Ne.symm h2
    simp [dedupRun, screenShotTail, hne, hne2]

/-- C2 witness: the dedup contract evaluated with a concrete digest
function and the frames [1], [2], [1] starting from the zero digest. -/
theorem dedup_gate_witness :
    screenShotTail sampleDigest (.ok [1]) (sampleDigest [1]) =
      .completed (sampleDigest [1]) none ∧
    screenShotTail sampleDigest (.ok [1]) zero16 = .completed (sampleDigest [1]) (some [1]) ∧
    (dedupRun sampleDigest [[1], [1]] zero16).2 = [[1]] ∧
    (dedupRun sampleDigest [[1], [2]] zero16).2 = [[1], [2]] ∧
    (dedupRun sampleDigest [[1], [2], [1]] zero16).1 =
      lastDigest sampleDigest (dedupRun sampleDigest [[1], [2], [1]] zero16).2 zero16 :=
  dedup_gate sampleDigest [1] [2] zero16 [[1], [2], [1]] (by decide) (by decide)

/-- C10: the quality command changes only the quality tier, the invert
command changes only the invert flag, the debug command changes only the
debug flag; in each case every other image-settings field, the other flags
and the md5 digest slot are untouched. -/
theorem command_frame_effects (val : String) (x y : Rat) (m c : Bool) (s : AppState) :
    ((dispatchCommand ⟨x, y, "quality", val, m, c⟩ s).1.imageSettings.brightness =
        s.imageSettings.brightness ∧
      (dispatchCommand ⟨x, y, "quality", val, m, c⟩ s).1.imageSettings.contrast =
        s.imageSettings.contrast ∧
      (dispatchCommand ⟨x, y, "quality", val, m, c⟩ s).1.imageSettings.saturation =
        s.imageSettings.saturation ∧
      (dispatchCommand ⟨x, y, "quality", val, m, c⟩ s).1.imageSettings.blur =
        s.imageSettings.blur ∧
      (dispatchCommand ⟨x, y, "quality", val, m, c⟩ s).1.imageSettings.pixelation =
        s.imageSettings.pixelation ∧
      (dispatchCommand ⟨x, y, "quality", val, m, c⟩ s).1.imageSettings.invert =
        s.imageSettings.invert ∧
      (dispatchCommand ⟨x, y, "quality", val, m, c⟩ s).1.imageSettings.isNavigating =
        s.imageSettings.isNavigating ∧
      (dispatchCommand ⟨x, y, "quality", val, m, c⟩ s).1.imageSettings.encoder =
        s.imageSettings.encoder ∧
      (dispatchCommand ⟨x, y, "quality", val, m, c⟩ s).1.debug = s.debug ∧
      (dispatchCommand ⟨x, y, "quality", val, m, c⟩ s).1.md5SumBuffer = s.md5SumBuffer) ∧
    ((dispatchCommand ⟨x, y, "invert", val, m, c⟩ s).1.imageSettings.brightness =
        s.imageSettings.brightness ∧
      (dispatchCommand ⟨x, y, "invert", val, m, c⟩ s).1.imageSettings.contrast =
        s.imageSettings.contrast ∧
      (dispatchCommand ⟨x, y, "invert", val, m, c⟩ s).1.imageSettings.saturation =
        s.imageSettings.saturation ∧
      (dispatchCommand ⟨x, y, "invert", val, m, c⟩ s).1.imageSettings.blur =
        s.imageSettings.blur ∧
      (dispatchCommand ⟨x, y, "invert", val, m, c⟩ s).1.imageSettings.pixelation =
        s.imageSettings.pixelation ∧
      (dispatchCommand ⟨x, y, "invert", val, m, c⟩ s).1.imageSettings.quality =
        s.imageSettings.quality ∧
      (dispatchCommand ⟨x, y, "invert", val, m, c⟩ s).1.imageSettings.isNavigating =
        s.imageSettings.isNavigating ∧
      (dispatchCommand ⟨x, y, "invert", val, m, c⟩ s).1.imageSettings.encoder =
        s.imageSettings.encoder ∧
      (dispatchCommand ⟨x, y, "invert", val, m, c⟩ s).1.debug = s.debug ∧
      (dispatchCommand ⟨x, y, "invert", val, m, c⟩ s).1.md5SumBuffer = s.md5SumBuffer) ∧
    ((dispatchCommand ⟨x, y, "debug", val, m, c⟩ s).1.imageSettings = s.imageSettings ∧
      (dispatchCommand ⟨x, y, "debug", val, m, c⟩ s).1.md5SumBuffer = s.md5SumBuffer) := by
  refine ⟨?_, ?_, ?_⟩
  · have base : dispatchCommand ⟨x, y, "quality", val, m, c⟩ s =
        ({ s with imageSettings := applyQuality val s.imageSettings }, []) := rfl
    rw [base]
    unfold applyQuality
    rcases atoi val with _ | q <;> simp
  · have base : dispatchCommand ⟨x, y, "invert", val, m, c⟩ s =
        (if s.imageSettings.invert then ({ s with imageSettings.invert := false }, [])
          else ({ s with imageSettings.invert := true }, [])) := rfl
    rw [base]
    by_cases hin : s.imageSettings.invert <;> simp [hin]
  · have base : dispatchCommand ⟨x, y, "debug", val, m, c⟩ s =
        (if s.debug then ({ s with debug := false }, [])
          else ({ s with debug := true }, [])) := rfl
    rw [base]
    by_cases hd : s.debug <;> simp [hd]

end G3n

namespace G3n

/-- Helper: per-field characterization of the imagesettings update when the
value splits into exactly five fields — each resulting field depends only
on its own substring (parse failure keeps the old value), and the
non-numeric fields are untouched. -/
theorem applyImageSettings_fields (val : String) (is : ImageSettings)
    (f0 f1 f2 f3 f4 : String) (h : splitString ':' val = [f0, f1, f2, f3, f4]) :
    (applyImageSettings val is).brightness =
      (match atoi f0 with
        | some br => ((getValueInRange br (-100) 100 : Int) : Rat)
        | none => is.brightness) ∧
    (applyImageSettings val is).contrast =
      (match atoi f1 with
        | some ct => ((getValueInRange ct (-100) 100 : Int) : Rat)
        | none => is.contrast) ∧
    (applyImageSettings val is).saturation =
      (match atoi f2 with
        | some sa => ((getValueInRange sa (-100) 100 : Int) : Rat)
        | none => is.saturation) ∧
    (applyImageSettings val is).blur =
      (match atoi f3 with
        | some bl => ((getValueInRange bl 0 20 : Int) : Rat)
        | none => is.blur) ∧
    (applyImageSettings val is).pixelation =
      (match parseFloat f4 with
        | some pix => getFloatValueInRange pix (.val 1) (.val 10)
        | none => is.pixelation) ∧
    (applyImageSettings val is).invert = is.invert ∧
    (applyImageSettings val is).quality = is.quality ∧
    (applyImageSettings val is).encoder = is.encoder ∧
    (applyImageSettings val is).isNavigating = is.isNavigating := by
  unfold applyImageSettings
  rw [h]
  rcases h0 : atoi f0 with _ | br <;>
    rcases h1 : atoi f1 with _ | ct <;>
      rcases h2 : atoi f2 with _ | sa <;>
        rcases h3 : atoi f3 with _ | bl <;>
          rcases h4 : parseFloat f4 with _ | pix <;>
            simp [h0, h1, h2, h3, h4]

/-- Helper: the [1,10] float clamp sends NaN to NaN and every other value
into the range. -/
theorem getFloatValueInRange_one_ten (pix : GoFloat) :
    (pix = GoFloat.nan ∧ getFloatValueInRange pix (.val 1) (.val 10) = GoFloat.nan) ∨
    (GoFloat.le (.val 1) (getFloatValueInRange pix (.val 1) (.val 10)) = true ∧
      GoFloat.le (getFloatValueInRange pix (.val 1) (.val 10)) (.val 10) = true) := by
  rcases pix with a | s | _
  · right
    have hs := getFloatValueInRange_spec (.val a) (.val 1) (.val 10) (by decide) (by simp)
    exact ⟨hs.1, hs.2.1⟩
  · right
    have hs := getFloatValueInRange_spec (.inf s) (.val 1) (.val 10) (by decide) (by simp)
    exact ⟨hs.1, hs.2.1⟩
  · left
    exact ⟨rfl, getFloatValueInRange_nan _ _⟩

end G3n

namespace G3n

/-- Helper: an imagesettings command updates the state by applying
`applyImageSettings` to the current settings and produces no effects. -/
theorem dispatch_imagesettings_eq (x y : Rat) (m c : Bool) (v : String) (s : AppState) :
    dispatchCommand ⟨x, y, "imagesettings", v, m, c⟩ s =
      ({ s with imageSettings := applyImageSettings v s.imageSettings }, []) := rfl

/-- C7 counterexample: the dispatched command with value "0:0:0:0:nan"
parses its fifth field with a nil error (ParseFloat accepts "nan"), the
clamp passes NaN through, and NaN — outside [1,10] under float64
comparisons — is stored in pixelation, refuting "pixelationFactor as
float clamped to [1.0,10.0]". -/
theorem imagesettings_nan_counterexample :
    (dispatchCommand ⟨0, 0, "imagesettings", "0:0:0:0:nan", false, false⟩
        sampleState).1.imageSettings.pixelation = GoFloat.nan ∧
    GoFloat.le (GoFloat.val 1) GoFloat.nan = false ∧
    GoFloat.le GoFloat.nan (GoFloat.val 10) = false := by decide

/-- C7 amended: an imagesettings command parses its value as five
colon-separated fields — brightness, contrast, saturation as integers
clamped to [-100,100], blur as an integer clamped to [0,20], and
pixelation as a float (including exponent, hexadecimal, underscore and
Inf/NaN forms) passed through the [1,10] clamp, which lands every parsed
value in the range except NaN, which is stored unclamped; each field
parses and clamps independently and a parse failure (including range
overflow) on one field skips only that field; a value that does not split
into exactly five fields leaves the state unchanged; and the concrete
value "150:-5:0:25:0.5" yields brightness 100, contrast -5, saturation 0,
blur 20 and pixelation 1. -/
theorem imagesettings_dispatch (s : AppState) (x y : Rat) (m c : Bool) (v w : String)
    (f0 f1 f2 f3 f4 : String) (h : splitString ':' v = [f0, f1, f2, f3, f4])
    (hw : (splitString ':' w).length ≠ 5) :
    ((dispatchCommand ⟨x, y, "imagesettings", v, m, c⟩ s).1.imageSettings.brightness =
        (match atoi f0 with
          | some br => ((getValueInRange br (-100) 100 : Int) : Rat)
          | none => s.imageSettings.brightness) ∧
      (dispatchCommand ⟨x, y, "imagesettings", v, m, c⟩ s).1.imageSettings.contrast =
        (match atoi f1 with
          | some ct => ((getValueInRange ct (-100) 100 : Int) : Rat)
          | none => s.imageSettings.contrast) ∧
      (dispatchCommand ⟨x, y, "imagesettings", v, m, c⟩ s).1.imageSettings.saturation =
        (match atoi f2 with
          | some sa => ((getValueInRange sa (-100) 100 : Int) : Rat)
          | none => s.imageSettings.saturation) ∧
      (dispatchCommand ⟨x, y, "imagesettings", v, m, c⟩ s).1.imageSettings.blur =
        (match atoi f3 with
          | some bl => ((getValueInRange bl 0 20 : Int) : Rat)
          | none => s.imageSettings.blur) ∧
      (dispatchCommand ⟨x, y, "imagesettings", v, m, c⟩ s).1.imageSettings.pixelation =
        (match parseFloat f4 with
          | some pix => getFloatValueInRange pix (.val 1) (.val 10)
          | none => s.imageSettings.pixelation) ∧
      (dispatchCommand ⟨x, y, "imagesettings", v, m, c⟩ s).1.imageSettings.invert =
        s.imageSettings.invert ∧
      (dispatchCommand ⟨x, y, "imagesettings", v, m, c⟩ s).1.imageSettings.quality =
        s.imageSettings.quality ∧
      (dispatchCommand ⟨x, y, "imagesettings", v, m, c⟩ s).1.imageSettings.encoder =
        s.imageSettings.encoder ∧
      (dispatchCommand ⟨x, y, "imagesettings", v, m, c⟩ s).1.imageSettings.isNavigating =
        s.imageSettings.isNavigating) ∧
    (∀ pix, parseFloat f4 = some pix →
      (pix = GoFloat.nan ∧
        (dispatchCommand ⟨x, y, "imagesettings", v, m, c⟩ s).1.imageSettings.pixelation =
          GoFloat.nan) ∨
      (GoFloat.le (.val 1)
          ((dispatchCommand ⟨x, y, "imagesettings", v, m, c⟩ s).1.imageSettings.pixelation) =
        true ∧
        GoFloat.le
          ((dispatchCommand ⟨x, y, "imagesettings", v, m, c⟩ s).1.imageSettings.pixelation)
          (.val 10) = true)) ∧
    dispatchCommand ⟨x, y, "imagesettings", w, m, c⟩ s = (s, []) ∧
    ((dispatchCommand ⟨x, y, "imagesettings", "150:-5:0:25:0.5", m, c⟩ s).1.imageSettings.brightness = 100 ∧
      (dispatchCommand ⟨x, y, "imagesettings", "150:-5:0:25:0.5", m, c⟩ s).1.imageSettings.contrast = -5 ∧
      (dispatchCommand ⟨x, y, "imagesettings", "150:-5:0:25:0.5", m, c⟩ s).1.imageSettings.saturation = 0 ∧
      (dispatchCommand ⟨x, y, "imagesettings", "150:-5:0:25:0.5", m, c⟩ s).1.imageSettings.blur = 20 ∧
      (dispatchCommand ⟨x, y, "imagesettings", "150:-5:0:25:0.5", m, c⟩ s).1.imageSettings.pixelation =
        GoFloat.val 1) := by
  have base : (dispatchCommand ⟨x, y, "imagesettings", v, m, c⟩ s).1.imageSettings =
      applyImageSettings v s.imageSettings := by rw [dispatch_imagesettings_eq]
  have hfields := applyImageSettings_fields v s.imageSettings f0 f1 f2 f3 f4 h
  refine ⟨?_, ?_, ?_, ?_⟩
  · rw [base]
    exact hfields
  · intro pix hpix
    rw [base, hfields.2.2.2.2.1, hpix]
    exact getFloatValueInRange_one_ten pix
  · have hw2 : applyImageSettings w s.imageSettings = s.imageSettings := by
      simp [applyImageSettings, hw]
    rw [dispatch_imagesettings_eq, hw2]
  · have base3 : (dispatchCommand ⟨x, y, "imagesettings", "150:-5:0:25:0.5", m, c⟩
        s).1.imageSettings = applyImageSettings "150:-5:0:25:0.5" s.imageSettings := by
      rw [dispatch_imagesettings_eq]
    obtain ⟨e0, e1, e2, e3, e4, -, -, -, -⟩ :=
      applyImageSettings_fields "150:-5:0:25:0.5" s.imageSettings
        "150" "-5" "0" "25" "0.5" (by decide)
    refine ⟨?_, ?_, ?_, ?_, ?_⟩ <;> rw [base3]
    · rw [e0, show atoi "150" = some 150 by decide]
      exact (by decide : ((getValueInRange 150 (-100) 100 : Int) : Rat) = 100)
    · rw [e1, show atoi "-5" = some (-5) by decide]
      exact (by decide : ((getValueInRange (-5) (-100) 100 : Int) : Rat) = -5)
    · rw [e2, show atoi "0" = some 0 by decide]
      exact (by decide : ((getValueInRange 0 (-100) 100 : Int) : Rat) = 0)
    · rw [e3, show atoi "25" = some 25 by decide]
      exact (by decide : ((getValueInRange 25 0 20 : Int) : Rat) = 20)
    · rw [e4, show parseFloat "0.5" = some (.val (Rat.divInt 1 2)) by decide]
      exact (by decide :
        getFloatValueInRange (.val (Rat.divInt 1 2)) (.val 1) (.val 10) = GoFloat.val 1)

/-- C7 witness: the imagesettings dispatch at the concrete clamped example
value "150:-5:0:25:0.5", the malformed value "abc", and the
exponent-form value "0:0:0:0:1e1" whose fifth field parses to 10. -/
theorem imagesettings_dispatch_witness :
    (dispatchCommand ⟨0, 0, "imagesettings", "150:-5:0:25:0.5", false, false⟩
        sampleState).1.imageSettings =
      { brightness := 100, contrast := -5, saturation := 0, blur := 20,
        pixelation := GoFloat.val 1, invert := false, quality := .mediumQ,
        encoder := "", isNavigating := false } ∧
    dispatchCommand ⟨0, 0, "imagesettings", "abc", false, false⟩ sampleState =
      (sampleState, []) ∧
    (dispatchCommand ⟨0, 0, "imagesettings", "0:0:0:0:1e1", false, false⟩
        sampleState).1.imageSettings.pixelation = GoFloat.val 10 := by
  have h := imagesettings_dispatch sampleState 0 0 false false "150:-5:0:25:0.5" "abc"
    "150" "-5" "0" "25" "0.5" (by decide) (by decide)
  exact ⟨by decide, h.2.2.1, by decide⟩

end G3n

namespace G3n

/-- C8 counterexample: the reachable command value "0:0:0:0:nan" drives
pixelation to NaN, which is outside [1,10] under float64 comparisons, so
the numeric fields do not all stay within their declared ranges. -/
theorem settings_range_nan_counterexample :
    settingsInRange sampleState.imageSettings ∧
    ¬ settingsInRange (runCommands
      [⟨0, 0, "imagesettings", "0:0:0:0:nan", false, false⟩] sampleState).imageSettings := by
  decide

/-- Helper: the quality case never moves a numeric field out of its
admissible set. -/
theorem applyQuality_preserves (val : String) (is : ImageSettings)
    (h : settingsAdmissible is) : settingsAdmissible (applyQuality val is) := by
  unfold applyQuality
  rcases atoi val with _ | q
  · exact h
  · exact h

/-- Helper: the imagesettings case keeps every integer-backed field inside
its declared range (each written value passes through a clamp) and leaves
pixelation in range or NaN (the clamp sends NaN to NaN and everything
else into [1,10]). -/
theorem applyImageSettings_preserves (val : String) (is : ImageSettings)
    (h : settingsAdmissible is) : settingsAdmissible (applyImageSettings val is) := by
  by_cases hc : (splitString ':' val).length = 5
  · obtain ⟨a, b, c, d, e, hl⟩ : ∃ a b c d e, splitString ':' val = [a, b, c, d, e] := by
      rcases hs : splitString ':' val with _ | ⟨a, _ | ⟨b, _ | ⟨c, _ | ⟨d, _ | ⟨e, _ | ⟨f, tl⟩⟩⟩⟩⟩⟩ <;>
        rw [hs] at hc <;>
        simp only [List.length_nil, List.length_cons] at hc <;>
        first
          | omega
          | exact ⟨a, b, c, d, e, rfl⟩
    obtain ⟨q0, q1, q2, q3, q4, -, -, -, -⟩ := applyImageSettings_fields val is a b c d e hl
    unfold settingsAdmissible at h ⊢
    obtain ⟨hb1, hb2, hc1, hc2, hs1, hs2, hl1, hl2, hp⟩ := h
    refine ⟨?_, ?_, ?_, ?_, ?_, ?_, ?_, ?_, ?_⟩
    · rcases h0 : atoi a with _ | br <;> simp only [q0, h0]
      · exact hb1
      · simpa using (@Int.cast_le Rat _ _ _).mpr (getValueInRange_mem br (-100) 100 (by decide)).1
    · rcases h0 : atoi a with _ | br <;> simp only [q0, h0]
      · exact hb2
      · simpa using (@Int.cast_le Rat _ _ _).mpr (getValueInRange_mem br (-100) 100 (by decide)).2
    · rcases h0 : atoi b with _ | ct <;> simp only [q1, h0]
      · exact hc1
      · simpa using (@Int.cast_le Rat _ _ _).mpr (getValueInRange_mem ct (-100) 100 (by decide)).1
    · rcases h0 : atoi b with _ | ct <;> simp only [q1, h0]
      · exact hc2
      · simpa using (@Int.cast_le Rat _ _ _).mpr (getValueInRange_mem ct (-100) 100 (by decide)).2
    · rcases h0 : atoi c with _ | sa <;> simp only [q2, h0]
      · exact hs1
      · simpa using (@Int.cast_le Rat _ _ _).mpr (getValueInRange_mem sa (-100) 100 (by decide)).1
    · rcases h0 : atoi c with _ | sa <;> simp only [q2, h0]
      · exact hs2
      · simpa using (@Int.cast_le Rat _ _ _).mpr (getValueInRange_mem sa (-100) 100 (by decide)).2
    · rcases h0 : atoi d with _ | bl <;> simp only [q3, h0]
      · exact hl1
      · simpa using (@Int.cast_le Rat _ _ _).mpr (getValueInRange_mem bl 0 20 (by decide)).1
    · rcases h0 : atoi d with _ | bl <;> simp only [q3, h0]
      · exact hl2
      · simpa using (@Int.cast_le Rat _ _ _).mpr (getValueInRange_mem bl 0 20 (by decide)).2
    · rcases h0 : parseFloat e with _ | pix <;> simp only [q4, h0]
      · exact hp
      · rcases getFloatValueInRange_one_ten pix with ⟨-, hnan⟩ | ⟨hlo, hhi⟩
        · right
          exact hnan
        · left
          exact ⟨hlo, hhi⟩
  · have heq : applyImageSettings val is = is := by
      simp [applyImageSettings, hc]
    rw [heq]
    exact h

/-- Helper: dispatching any single command keeps the image settings
admissible. -/
theorem dispatchCommand_preserves_range (cmd : Command) (s : AppState)
    (h : settingsAdmissible s.imageSettings) :
    settingsAdmissible (dispatchCommand cmd s).1.imageSettings := by
  obtain ⟨x, y, ccmd, val, m, ct⟩ := cmd
  by_cases h1 : ccmd = ""
  · subst h1; exact h
  by_cases h2 : ccmd = "mousedown"
  · subst h2; cases m <;> exact h
  by_cases h3 : ccmd = "zoom"
  · subst h3; exact h
  by_cases h4 : ccmd = "mouseup"
  · subst h4; exact h
  by_cases h5 : ccmd = "hide"
  · subst h5; exact h
  by_cases h6 : ccmd = "unhide"
  · subst h6; exact h
  by_cases h7 : ccmd = "userdata"
  · subst h7
    have base : dispatchCommand ⟨x, y, "userdata", val, m, ct⟩ s =
        (match List.lookup val s.nodeBuffer with
          | some ud => (s, sendMessageToClient "userdata" ud)
          | none => (s, [])) := rfl
    rw [base]
    rcases List.lookup val s.nodeBuffer with _ | ud <;> exact h
  by_cases h8 : ccmd = "keydown"
  · subst h8; exact h
  by_cases h9 : ccmd = "keyup"
  · subst h9; exact h
  by_cases h10 : ccmd = "view"
  · subst h10; exact h
  by_cases h11 : ccmd = "zoomextent"
  · subst h11; exact h
  by_cases h12 : ccmd = "focus"
  · subst h12; exact h
  by_cases h13 : ccmd = "invert"
  · subst h13
    have base : dispatchCommand ⟨x, y, "invert", val, m, ct⟩ s =
        (if s.imageSettings.invert then ({ s with imageSettings.invert := false }, [])
          else ({ s with imageSettings.invert := true }, [])) := rfl
    rw [base]
    by_cases hi : s.imageSettings.invert = true
    · rw [if_pos hi]; exact h
    · rw [if_neg hi]; exact h
  by_cases h14 : ccmd = "imagesettings"
  · subst h14; exact applyImageSettings_preserves val s.imageSettings h
  by_cases h15 : ccmd = "quality"
  · subst h15; exact applyQuality_preserves val s.imageSettings h
  by_cases h16 : ccmd = "fov"
  · subst h16
    have base : dispatchCommand ⟨x, y, "fov", val, m, ct⟩ s =
        (match atoi val with
          | some fov => (s, [Effect.setFov (getValueInRange fov 5 120)])
          | none => (s, [])) := rfl
    rw [base]
    rcases atoi val with _ | n <;> exact h
  by_cases h17 : ccmd = "debug"
  · subst h17
    have base : dispatchCommand ⟨x, y, "debug", val, m, ct⟩ s =
        (if s.debug then ({ s with debug := false }, [])
          else ({ s with debug := true }, [])) := rfl
    rw [base]
    by_cases hd : s.debug = true
    · rw [if_pos hd]; exact h
    · rw [if_neg hd]; exact h
  by_cases h18 : ccmd = "close"
  · subst h18; exact h
  unfold dispatchCommand
  rw [if_neg h1, if_neg h2, if_neg h3, if_neg h4, if_neg h5, if_neg h6, if_neg h7,
    if_neg h8, if_neg h9, if_neg h10, if_neg h11, if_neg h12, if_neg h13, if_neg h14,
    if_neg h15, if_neg h16, if_neg h17, if_neg h18]
  exact h

/-- C8 amended: starting from admissible settings (all numeric fields in
range, pixelation in range or NaN), after dispatching any sequence of
commands the integer-backed fields brightness, contrast and saturation
stay in [-100,100] and blur in [0,20], and pixelation stays in [1,10] or
is NaN — pixelation can leave [1,10] only by becoming NaN, which happens
exactly when an imagesettings command's fifth field parses to NaN; every
other write goes through a clamp and lands on the nearest bound. -/
theorem settings_always_in_range (cmds : List Command) (s : AppState)
    (h : settingsAdmissible s.imageSettings) :
    settingsAdmissible (runCommands cmds s).imageSettings := by
  induction cmds generalizing s with
  | nil => exact h
  | cons cmd rest ih =>
    exact ih (dispatchCommand cmd s).1 (dispatchCommand_preserves_range cmd s h)

/-- C8 witness: the admissible invariant evaluated after a concrete command
sequence (an out-of-range imagesettings command, a NaN pixelation command,
a quality change and an invert toggle) starting from the sample state. -/
theorem settings_always_in_range_witness :
    settingsAdmissible (runCommands
      [⟨0, 0, "imagesettings", "150:-5:0:25:0.5", false, false⟩,
        ⟨0, 0, "imagesettings", "0:0:0:0:nan", false, false⟩,
        ⟨0, 0, "quality", "2", false, false⟩,
        ⟨0, 0, "invert", "", false, false⟩] sampleState).imageSettings :=
  settings_always_in_range _ sampleState (by decide)

end G3n
